import Mathlib

/-!
# Shallow embedding of `battery_monitor.py`

This file embeds the cyberdeck battery monitor (Waveshare UPS HAT (C) /
Raspberry Pi, `src/battery_monitor.py`) into Lean 4 and proves the
specification claims about it.

Modelling choices:
* Python floats are modelled as `ℚ`; every arithmetic operation in the
  script is a subtraction, division or multiplication by constants, so the
  rational model tracks the source exactly up to floating-point rounding,
  which none of the claims depends on.
* Side effects (console prints, `notify-send` invocations, `time.sleep`,
  the `sudo shutdown -h now` subprocess, and reads of the ina219 sensor
  registers) are modelled as an explicit event trace: each loop iteration
  is a pure function from the sampled `Reading` to the list of emitted
  `Event`s plus a flag saying whether the `while True` loop continues
  (`true`) or was left by `break` (`false`).
* Message strings carry their parameters structurally (`AlertMsg`,
  `ConsoleLine`) instead of as formatted text; the `%.2f` formatting in the
  source affects no claim.
-/

/-- One bundle of sensor samples taken at the top of a loop iteration
(source lines 111–114: `ina219.bus_voltage`, `ina219.shunt_voltage`,
`ina219.current`, `ina219.power`) together with the overflow flag read at
line 131 (`ina219.overflow`). `current` is in milliamps, as in the source. -/
structure Reading where
  bus_voltage : ℚ
  shunt_voltage : ℚ
  current : ℚ
  power : ℚ
  overflow : Bool
  deriving DecidableEq, Repr

/-- The console lines printed by the script, with their parameters.
`display` is the 8-line status block of source lines 121–128 (VIN+, VIN−,
shunt voltage, shunt current in amps, the computed power, the power
register, and the clamped percent). -/
inductive ConsoleLine where
  | display (vinPlus vinMinus shunt currentAmps powerCalc powerReg percent : ℚ)
  | overflowWarning
  | noInputVoltage
  | ranBatteryPercentage
  | shuttingDownIn (i : ℤ)
  | systemShuttingDown
  deriving DecidableEq, Repr

/-- The bodies of the desktop notifications sent by the script, with their
parameters. -/
inductive AlertMsg where
  | runningOnBattery (pct : ℚ)
  | batteryLow (pct : ℚ)
  | criticallyLowWillShutdown (pct : ℚ)
  | shuttingDownIn (i : ℤ)
  | shuttingDownNow (pct : ℚ)
  | charging (pct : ℚ)
  deriving DecidableEq, Repr

/-- The observable effects of the script, in program order.

* `consoleLine` — a `print(...)`.
* `sendAlert` — `send_alert` (source lines 82–83): `notify-send` with a
  2000 ms timeout, default urgency, auto-dismissing; the fire-and-forget
  informational kind.
* `sendCriticalAlert` — `send_critical_alert` (source lines 86–87):
  `notify-send --urgency=critical`, persistent, non-auto-dismissing.
* `sleepFor` — `time.sleep(seconds)`.
* `runShutdownCmd` — `subprocess.run(['sudo', 'shutdown', '-h', 'now'])`.
* `sensorRegisterRead` — one read of an ina219 register property. -/
inductive Event where
  | consoleLine (l : ConsoleLine)
  | sendAlert (m : AlertMsg)
  | sendCriticalAlert (m : AlertMsg)
  | sleepFor (seconds : ℚ)
  | runShutdownCmd
  | sensorRegisterRead
  deriving DecidableEq, Repr

/-- Source line 46: `battery_is_low = 25.00`. -/
def battery_is_low : ℚ := 25

/-- Source line 47: `battery_shutdown = 10.00`. -/
def battery_shutdown : ℚ := 10

/-- Source line 48: `battery_check_interval = 10` (seconds). -/
def battery_check_interval : ℚ := 10

/-- Source line 49: `i2c_address = 0x43`. -/
def i2c_address : ℕ := 0x43

/-- Source line 50: `debug = False` (the debug dump at lines 58–67 is dead). -/
def debug : Bool := false

/-- Source lines 77–79 (the active UPS HAT (C) profile):
`return ((bus_voltage - 3.0) / (4.1 - 3.0)) * 100`. Note: no clamping is
performed here. -/
def get_battery_percentage (bus_voltage : ℚ) : ℚ :=
  ((bus_voltage - 3.0) / (4.1 - 3.0)) * 100

/-- Source lines 116–118: the display-only percent, computed inline with the
same formula and then clamped sequentially
(`if(percent > 98):percent = 100`, `if(percent < 0):percent = 0`). -/
def percent_display (bus_voltage : ℚ) : ℚ :=
  let percent := (bus_voltage - 3.0) / (4.1 - 3.0) * 100
  let percent1 := if percent > 98 then (100 : ℚ) else percent
  if percent1 < 0 then (0 : ℚ) else percent1

/-- Source line 140 (also printed at line 125): the power-presence
heuristic value `get_power_calc = bus_voltage * (current / 1000)`. -/
def get_power_calc (r : Reading) : ℚ :=
  r.bus_voltage * (r.current / 1000)

/-- Python's `range(start, stop, -step)` for a positive `step`: the
descending sequence `start, start - step, ...` of all values strictly
greater than `stop`.  Its length is `⌈(start - stop) / step⌉` when
`start > stop` and `0` otherwise, which is what the closed form below
computes. -/
def pyRangeDown (start stop : ℤ) (step : ℕ) : List ℤ :=
  (List.range (((start - stop).toNat + step - 1) / step)).map (fun k => start - k * step)

/-- Source lines 93–99, `battery_low()`: the shutdown countdown.
`for i in range(10, 0, -3):` prints and `send_alert`s
"Shutting down in {i} seconds..." and then `time.sleep(3)`, each
iteration.  The body performs no sensor access (the source even carries a
TODO noting a battery check is missing here). -/
def battery_low : List Event :=
  (pyRangeDown 10 0 3).flatMap fun i =>
    [Event.consoleLine (ConsoleLine.shuttingDownIn i),
     Event.sendAlert (AlertMsg.shuttingDownIn i),
     Event.sleepFor 3]

/-- Source lines 104–107, `system_shutdown()`: print, pause 5 s, then run
`sudo shutdown -h now`.  Its only call site (line 160) is commented out in
the source. -/
def system_shutdown : List Event :=
  [Event.consoleLine ConsoleLine.systemShuttingDown,
   Event.sleepFor 5,
   Event.runShutdownCmd]

/-- The unconditional first part of a loop iteration (source lines
111–149): the four register reads, the status display block, the overflow
register read and warning, the "no input voltage" branch
(`get_power_calc <= -5.00`), and the low-battery branch
(`battery_percentage <= battery_is_low`, which prints
"Ran Battery Percentage" and sends the low alert). -/
def cycle_common_events (r : Reading) : List Event :=
  [Event.sensorRegisterRead, Event.sensorRegisterRead,
   Event.sensorRegisterRead, Event.sensorRegisterRead] ++
  [Event.consoleLine (ConsoleLine.display (r.bus_voltage + r.shunt_voltage)
      r.bus_voltage r.shunt_voltage (r.current / 1000) (get_power_calc r)
      r.power (percent_display r.bus_voltage))] ++
  (Event.sensorRegisterRead ::
    (if r.overflow then [Event.consoleLine ConsoleLine.overflowWarning] else [])) ++
  (if get_power_calc r ≤ -5 then
     [Event.consoleLine ConsoleLine.noInputVoltage,
      Event.sendAlert (AlertMsg.runningOnBattery (get_battery_percentage r.bus_voltage))]
   else []) ++
  (if get_battery_percentage r.bus_voltage ≤ battery_is_low then
     [Event.consoleLine ConsoleLine.ranBatteryPercentage,
      Event.sendAlert (AlertMsg.batteryLow (get_battery_percentage r.bus_voltage))]
   else [])

/-- One iteration of the `while True` loop (source lines 110–165): the
emitted events paired with `true` when control falls through to the next
iteration and `false` when the `break` at line 161 leaves the loop.

The shutdown branch (lines 155–163) first sends the critical
"plug into power" alert and runs the `battery_low()` countdown, then
re-tests `battery_percentage <= battery_shutdown and get_power_calc <= -1.00`
on the very same variables (`float(battery_shutdown)` at line 155 is the
identity — the constant is already a float).  On the shutdown path the
`system_shutdown()` call at line 160 is commented out in the source, so
only the final critical alert and the `break` happen.  On the fall-through
paths the iteration ends with `time.sleep(battery_check_interval)`
(line 165); `break` skips that sleep. -/
def monitor_cycle (r : Reading) : List Event × Bool :=
  if get_battery_percentage r.bus_voltage ≤ battery_shutdown then
    if get_battery_percentage r.bus_voltage ≤ battery_shutdown ∧ get_power_calc r ≤ -1 then
      (cycle_common_events r ++
         [Event.sendCriticalAlert
            (AlertMsg.criticallyLowWillShutdown (get_battery_percentage r.bus_voltage))] ++
         battery_low ++
         [Event.sendCriticalAlert
            (AlertMsg.shuttingDownNow (get_battery_percentage r.bus_voltage))],
       false)
    else
      (cycle_common_events r ++
         [Event.sendCriticalAlert
            (AlertMsg.criticallyLowWillShutdown (get_battery_percentage r.bus_voltage))] ++
         battery_low ++
         [Event.sendAlert (AlertMsg.charging (get_battery_percentage r.bus_voltage))] ++
         [Event.sleepFor battery_check_interval],
       true)
  else
    (cycle_common_events r ++ [Event.sleepFor battery_check_interval], true)

/-- The `while True` loop run over a finite stream of readings: each
iteration consumes one reading; a `break` ends the run and no later
reading is ever consumed. -/
def monitor_loop : List Reading → List Event
  | [] => []
  | r :: rs =>
    match monitor_cycle r with
    | (evs, true) => evs ++ monitor_loop rs
    | (evs, false) => evs

/-- A failure raised by one of the ina219 register reads at the top of an
iteration (device absent, bus timeout, ...). -/
structure SensorFault where
  message : String
  deriving DecidableEq, Repr

/-- The loop over a stream in which each iteration's sensor read either
yields a `Reading` or raises a `SensorFault`.  The script contains no
`try`/`except` anywhere, so a raise at the top of an iteration emits none
of that iteration's events and escapes the `while True` loop, killing the
process: the result pairs the events printed before the failure with the
escaping fault (`none` when no read failed). -/
def monitor_loop_from : List (Except SensorFault Reading) → List Event × Option SensorFault
  | [] => ([], none)
  | Except.error f :: _ => ([], some f)
  | Except.ok r :: rs =>
    match monitor_cycle r with
    | (evs, false) => (evs, none)
    | (evs, true) =>
      let rest := monitor_loop_from rs
      (evs ++ rest.1, rest.2)

/-- The seconds slept by an event (`0` for non-sleep events). -/
def sleepAmount : Event → ℚ
  | Event.sleepFor q => q
  | _ => 0

/-- Total seconds slept across a trace. -/
def totalSleep (evs : List Event) : ℚ :=
  (evs.map sleepAmount).sum

/-- Is the event a critical (persistent, `--urgency=critical`) notification? -/
def isCriticalAlertEvent : Event → Bool
  | Event.sendCriticalAlert _ => true
  | _ => false

/-- Is the event a desktop notification of either kind? -/
def isNotificationEvent : Event → Bool
  | Event.sendAlert _ => true
  | Event.sendCriticalAlert _ => true
  | _ => false

/-- The Confirm-state decision of the shutdown branch, as a function of the
values computed from the start-of-cycle sample (source line 158):
`battery_percentage <= battery_shutdown and get_power_calc <= -1.00`. -/
def confirm_check (r : Reading) : Bool :=
  decide (get_battery_percentage r.bus_voltage ≤ battery_shutdown) &&
  decide (get_power_calc r ≤ -1)

/-- A reading with the battery exactly at the empty reference and a 2 A
discharge current: the estimate is 0 % and the power heuristic reads
−6 W (battery-only). -/
def scenarioD_reading : Reading :=
  ⟨3, 0, -2000, 6, false⟩

/-- A reading at the empty reference with zero measured current: the
estimate is 0 % but the power heuristic reads 0 W (power present). -/
def idle_battery_reading : Reading :=
  ⟨3, 0, 0, 0, false⟩

/-- A reading at the full reference with zero measured current: the
estimate is 100 %, no alert branch fires. -/
def nominal_reading : Reading :=
  ⟨4.1, 0, 0, 0, false⟩

/-- A reading slightly above empty (estimate ≈ 9.09 %) with a 0.5 A
discharge: the power heuristic reads −1.55 W. -/
def low_discharging_reading : Reading :=
  ⟨3.1, 0, -500, 2, false⟩

-- Helper: the countdown trace, computed once and for all.
theorem battery_low_eq :
    battery_low =
      [Event.consoleLine (ConsoleLine.shuttingDownIn 10),
       Event.sendAlert (AlertMsg.shuttingDownIn 10), Event.sleepFor 3,
       Event.consoleLine (ConsoleLine.shuttingDownIn 7),
       Event.sendAlert (AlertMsg.shuttingDownIn 7), Event.sleepFor 3,
       Event.consoleLine (ConsoleLine.shuttingDownIn 4),
       Event.sendAlert (AlertMsg.shuttingDownIn 4), Event.sleepFor 3,
       Event.consoleLine (ConsoleLine.shuttingDownIn 1),
       Event.sendAlert (AlertMsg.shuttingDownIn 1), Event.sleepFor 3] := by
  decide

-- Helper: the loop breaks exactly when both conjuncts of line 158 hold.
theorem monitor_cycle_snd_false_iff (r : Reading) :
    (monitor_cycle r).2 = false ↔
      (get_battery_percentage r.bus_voltage ≤ battery_shutdown ∧ get_power_calc r ≤ -1) := by
  unfold monitor_cycle
  split_ifs with h1 h2
  · simp [h2]
  · simp [h2]
  · simp [h1]

-- Helper: the sequential clamping of lines 116–118, as a nested conditional.
theorem percent_display_eq (v : ℚ) :
    percent_display v =
      (if get_battery_percentage v > 98 then (100 : ℚ)
       else if get_battery_percentage v < 0 then 0 else get_battery_percentage v) := by
  simp only [percent_display, get_battery_percentage]
  split_ifs <;> first | rfl | linarith

/-- **C2 (counterexample).** The Charge Estimator's returned percentage is
not always within [0,100]: at a bus voltage of 4.2 V (a charging Li-ion
cell) `get_battery_percentage` returns 1200/11 ≈ 109.09 > 100 — the
function performs no clamping. -/
theorem get_battery_percentage_exceeds_100 :
    get_battery_percentage 4.2 > 100 := by
  norm_num [get_battery_percentage]

/-- **C2 (amended).** The clamping (raw > 98 forced to 100, raw < 0 forced
to 0, hence a result in [0,100]) applies to the display-only `percent`
computed in the monitor loop, not to the Charge Estimator function
`get_battery_percentage`, whose raw interpolation is what the control
decisions use. -/
theorem percent_display_clamped_in_range (v : ℚ) :
    percent_display v =
      (if get_battery_percentage v > 98 then (100 : ℚ)
       else if get_battery_percentage v < 0 then 0 else get_battery_percentage v) ∧
    0 ≤ percent_display v ∧ percent_display v ≤ 100 := by
  refine ⟨percent_display_eq v, ?_, ?_⟩ <;>
    rw [percent_display_eq v] <;> split_ifs <;> norm_num <;> linarith

/-- **C8.** The Charge Estimator is monotone on the reference range
[3.0 V, 4.1 V]: a strictly larger bus voltage never yields a smaller
percentage. -/
theorem get_battery_percentage_monotone (v1 v2 : ℚ) (h1 : 3 ≤ v1) (h2 : v1 < v2)
    (h3 : v2 ≤ 4.1) : get_battery_percentage v1 ≤ get_battery_percentage v2 := by
  unfold get_battery_percentage
  have hc : ((4.1 : ℚ) - 3.0) = 11/10 := by norm_num
  rw [hc, div_mul_eq_mul_div, div_mul_eq_mul_div, div_le_div_iff_of_pos_right]
  · nlinarith
  · norm_num

/-- Witness for **C8** at v1 = 3, v2 = 4. -/
theorem get_battery_percentage_monotone_witness :
    (3 : ℚ) ≤ 3 ∧ (3 : ℚ) < 4 ∧ (4 : ℚ) ≤ 4.1 ∧
      get_battery_percentage 3 ≤ get_battery_percentage 4 :=
  ⟨le_refl 3, by norm_num, by norm_num,
   get_battery_percentage_monotone 3 4 (le_refl 3) (by norm_num) (by norm_num)⟩

/-- **C4 (counterexample).** The Countdown phase does not run for a fixed
total duration of 10 time units: `range(10, 0, -3)` yields four steps
(10, 7, 4, 1) and the body sleeps 3 seconds after each alert, so the phase
sleeps 12 time units in total, not 10. -/
theorem countdown_total_sleep_is_twelve_not_ten :
    totalSleep battery_low = 12 ∧ (12 : ℚ) ≠ 10 := by
  rw [battery_low_eq]
  constructor
  · norm_num [totalSleep, sleepAmount]
  · norm_num

/-- **C4 (amended).** The Countdown phase counts N down from 10 in
fixed-size steps of 3 (emitting a "shutting down in N" alert at
N = 10, 7, 4, 1) and sleeps 3 time units after each alert — 12 time units
of sleep in total — and it never re-samples the sensor during the phase. -/
theorem countdown_structure :
    pyRangeDown 10 0 3 = [10, 7, 4, 1] ∧
    battery_low.count (Event.sleepFor 3) = 4 ∧
    totalSleep battery_low = 12 ∧
    battery_low.count Event.sensorRegisterRead = 0 := by
  refine ⟨by decide, ?_, ?_, ?_⟩ <;> rw [battery_low_eq]
  · decide
  · norm_num [totalSleep, sleepAmount]
  · decide

/-- **C5 (counterexample).** The repeated "shutting down in N"
notifications of the Countdown phase are not critical notifications: the
countdown body calls `send_alert` (the fire-and-forget informational kind),
and the countdown trace contains no critical notification at all. -/
theorem countdown_alerts_are_not_critical :
    Event.sendAlert (AlertMsg.shuttingDownIn 10) ∈ battery_low ∧
    battery_low.countP isCriticalAlertEvent = 0 := by
  rw [battery_low_eq]
  decide

/-- **C5 (amended).** Every notification emitted during the Countdown phase
is a "shutting down in N" notification of the fire-and-forget informational
kind (`send_alert`: auto-dismissing after 2000 ms, default urgency); the
critical kind is used only for the alert sent on entering the shutdown
branch and for the final shutdown alert, not during the countdown. -/
theorem countdown_notifications_all_informational :
    battery_low.filter isNotificationEvent =
      [Event.sendAlert (AlertMsg.shuttingDownIn 10),
       Event.sendAlert (AlertMsg.shuttingDownIn 7),
       Event.sendAlert (AlertMsg.shuttingDownIn 4),
       Event.sendAlert (AlertMsg.shuttingDownIn 1)] ∧
    battery_low.countP isCriticalAlertEvent = 0 := by
  rw [battery_low_eq]
  decide

-- Helper: one unfolding of the loop over a reading stream.
theorem monitor_loop_cons (r : Reading) (rs : List Reading) :
    monitor_loop (r :: rs) =
      if (monitor_cycle r).2 = true then (monitor_cycle r).1 ++ monitor_loop rs
      else (monitor_cycle r).1 := by
  rcases hmc : monitor_cycle r with ⟨evs, b⟩
  cases b <;> simp [monitor_loop, hmc]

/-- **C1 (code bug evaluation).** Scenario D at a concrete reading
(3.0 V bus, 2 A discharge: estimate 0 % ≤ shutdown threshold, derived
power −6 W ≤ −1): the cycle does reach the terminal state (the final
critical alert is sent, the `break` fires, and a subsequent reading is
never processed), but the OS shutdown command is never invoked — the
`system_shutdown()` call at source line 160 is commented out, contradicting
the script's own docstring ("then a `shutdown -h now` is run"). -/
theorem scenarioD_terminates_without_shutdown_command :
    (monitor_cycle scenarioD_reading).2 = false ∧
    Event.sendCriticalAlert
        (AlertMsg.shuttingDownNow (get_battery_percentage scenarioD_reading.bus_voltage)) ∈
      (monitor_cycle scenarioD_reading).1 ∧
    Event.runShutdownCmd ∉ (monitor_cycle scenarioD_reading).1 ∧
    monitor_loop [scenarioD_reading, scenarioD_reading] = (monitor_cycle scenarioD_reading).1 := by
  have h1 : get_battery_percentage scenarioD_reading.bus_voltage ≤ battery_shutdown := by
    norm_num [get_battery_percentage, scenarioD_reading, battery_shutdown]
  have h2 : get_power_calc scenarioD_reading ≤ -1 := by
    norm_num [get_power_calc, scenarioD_reading]
  have hsnd : (monitor_cycle scenarioD_reading).2 = false :=
    (monitor_cycle_snd_false_iff _).mpr ⟨h1, h2⟩
  refine ⟨hsnd, ?_, ?_, ?_⟩
  · simp [monitor_cycle, h1, h2]
  · norm_num [monitor_cycle, h1, h2, cycle_common_events, battery_low_eq,
      scenarioD_reading, get_power_calc, get_battery_percentage, battery_is_low,
      battery_shutdown]
    decide
  · rw [monitor_loop_cons, hsnd]
    simp

/-- **C3.** The Confirm-state decision after the countdown is exactly the
predicate `confirm_check` evaluated on the percentage and derived-power
values of the reading sampled at the start of the cycle (the embedding
binds them once, as the source binds `battery_percentage` and
`get_power_calc` before the countdown), and the countdown phase performs
no sensor register read, so those two values cannot change during it. -/
theorem confirm_reuses_precountdown_values (r : Reading)
    (h : get_battery_percentage r.bus_voltage ≤ battery_shutdown) :
    ((monitor_cycle r).2 = false ↔ confirm_check r = true) ∧
    Event.sensorRegisterRead ∉ battery_low := by
  constructor
  · rw [monitor_cycle_snd_false_iff, confirm_check]
    simp
  · rw [battery_low_eq]
    decide

/-- Witness for **C3** at `idle_battery_reading` (estimate 0 %). -/
theorem confirm_reuses_precountdown_values_witness :
    get_battery_percentage idle_battery_reading.bus_voltage ≤ battery_shutdown ∧
    (((monitor_cycle idle_battery_reading).2 = false ↔
        confirm_check idle_battery_reading = true) ∧
      Event.sensorRegisterRead ∉ battery_low) :=
  ⟨by norm_num [get_battery_percentage, idle_battery_reading, battery_shutdown],
   confirm_reuses_precountdown_values idle_battery_reading
     (by norm_num [get_battery_percentage, idle_battery_reading, battery_shutdown])⟩

/-- **C10.** Whenever the Confirm check executes (i.e. under the very
hypothesis that gated entry into the shutdown branch), its percentage
conjunct holds necessarily, so the Shutdown-versus-Monitoring decision is
equivalent to the power-presence conjunct alone. -/
theorem confirm_decision_depends_only_on_power (r : Reading)
    (h : get_battery_percentage r.bus_voltage ≤ battery_shutdown) :
    get_battery_percentage r.bus_voltage ≤ battery_shutdown ∧
    ((monitor_cycle r).2 = false ↔ get_power_calc r ≤ -1) := by
  refine ⟨h, ?_⟩
  rw [monitor_cycle_snd_false_iff]
  exact ⟨fun hc => hc.2, fun hp => ⟨h, hp⟩⟩

/-- Witness for **C10** at `low_discharging_reading` (estimate ≈ 9.09 %,
derived power −1.55 W). -/
theorem confirm_decision_depends_only_on_power_witness :
    get_battery_percentage low_discharging_reading.bus_voltage ≤ battery_shutdown ∧
    ((monitor_cycle low_discharging_reading).2 = false ↔
      get_power_calc low_discharging_reading ≤ -1) :=
  confirm_decision_depends_only_on_power low_discharging_reading
    (by norm_num [get_battery_percentage, low_discharging_reading, battery_shutdown])

/-- **C6.** Scenario C: the shutdown branch is entered (estimate at or
below the shutdown threshold) but at the Confirm check the power-presence
heuristic shows power restored (derived power > −1.0).  The cycle emits the
"charging" informational alert, the loop continues (returns to
Monitoring), and neither the terminal critical alert nor the OS shutdown
command occurs in that cycle. -/
theorem scenarioC_power_restored_returns_to_monitoring (r : Reading)
    (h1 : get_battery_percentage r.bus_voltage ≤ battery_shutdown)
    (h2 : -1 < get_power_calc r) :
    (monitor_cycle r).2 = true ∧
    Event.sendAlert (AlertMsg.charging (get_battery_percentage r.bus_voltage)) ∈
      (monitor_cycle r).1 ∧
    Event.sendCriticalAlert (AlertMsg.shuttingDownNow (get_battery_percentage r.bus_voltage)) ∉
      (monitor_cycle r).1 ∧
    Event.runShutdownCmd ∉ (monitor_cycle r).1 := by
  have hcond : ¬(get_battery_percentage r.bus_voltage ≤ battery_shutdown ∧
      get_power_calc r ≤ -1) := by
    rintro ⟨-, hp⟩
    linarith
  have hp : ¬get_power_calc r ≤ -1 := not_le.mpr h2
  refine ⟨?_, ?_, ?_, ?_⟩
  · cases hb : (monitor_cycle r).2
    · exact absurd ((monitor_cycle_snd_false_iff r).mp hb) hcond
    · rfl
  · simp [monitor_cycle, h1, hp]
  · simp only [monitor_cycle, if_pos h1, if_neg hcond]
    unfold cycle_common_events
    split_ifs <;> simp [battery_low_eq]
  · simp only [monitor_cycle, if_pos h1, if_neg hcond]
    unfold cycle_common_events
    split_ifs <;> simp [battery_low_eq]

/-- Witness for **C6** at `idle_battery_reading` (estimate 0 %, derived
power 0 W > −1). -/
theorem scenarioC_power_restored_returns_to_monitoring_witness :
    get_battery_percentage idle_battery_reading.bus_voltage ≤ battery_shutdown ∧
    -1 < get_power_calc idle_battery_reading ∧
    ((monitor_cycle idle_battery_reading).2 = true ∧
      Event.sendAlert
          (AlertMsg.charging (get_battery_percentage idle_battery_reading.bus_voltage)) ∈
        (monitor_cycle idle_battery_reading).1 ∧
      Event.sendCriticalAlert
          (AlertMsg.shuttingDownNow (get_battery_percentage idle_battery_reading.bus_voltage)) ∉
        (monitor_cycle idle_battery_reading).1 ∧
      Event.runShutdownCmd ∉ (monitor_cycle idle_battery_reading).1) :=
  ⟨by norm_num [get_battery_percentage, idle_battery_reading, battery_shutdown],
   by norm_num [get_power_calc, idle_battery_reading],
   scenarioC_power_restored_returns_to_monitoring idle_battery_reading
     (by norm_num [get_battery_percentage, idle_battery_reading, battery_shutdown])
     (by norm_num [get_power_calc, idle_battery_reading])⟩

/-- **C7.** No threshold crossing is console-silent: in any cycle in which
the low-battery condition holds, the trace contains both the
"Ran Battery Percentage" console line and the low-battery desktop
notification; and in any cycle in which the shutdown condition holds, the
trace contains both countdown console lines (e.g. "Shutting down in 10
seconds...") and the critical desktop notification. -/
theorem threshold_crossings_reach_console_and_desktop (r : Reading) :
    (get_battery_percentage r.bus_voltage ≤ battery_is_low →
       Event.consoleLine ConsoleLine.ranBatteryPercentage ∈ (monitor_cycle r).1 ∧
       Event.sendAlert (AlertMsg.batteryLow (get_battery_percentage r.bus_voltage)) ∈
         (monitor_cycle r).1) ∧
    (get_battery_percentage r.bus_voltage ≤ battery_shutdown →
       Event.consoleLine (ConsoleLine.shuttingDownIn 10) ∈ (monitor_cycle r).1 ∧
       Event.sendCriticalAlert
           (AlertMsg.criticallyLowWillShutdown (get_battery_percentage r.bus_voltage)) ∈
         (monitor_cycle r).1) := by
  constructor
  · intro hlow
    constructor <;>
      · unfold monitor_cycle
        split_ifs <;> simp [cycle_common_events, hlow]
  · intro hsd
    constructor <;>
      · simp only [monitor_cycle, if_pos hsd]
        split_ifs <;> simp [battery_low_eq]

/-- Witness for **C7** at `idle_battery_reading` (estimate 0 %, below both
thresholds). -/
theorem threshold_crossings_reach_console_and_desktop_witness :
    Event.consoleLine ConsoleLine.ranBatteryPercentage ∈ (monitor_cycle idle_battery_reading).1 ∧
    Event.sendAlert
        (AlertMsg.batteryLow (get_battery_percentage idle_battery_reading.bus_voltage)) ∈
      (monitor_cycle idle_battery_reading).1 ∧
    Event.consoleLine (ConsoleLine.shuttingDownIn 10) ∈ (monitor_cycle idle_battery_reading).1 ∧
    Event.sendCriticalAlert
        (AlertMsg.criticallyLowWillShutdown (get_battery_percentage idle_battery_reading.bus_voltage)) ∈
      (monitor_cycle idle_battery_reading).1 :=
  ⟨((threshold_crossings_reach_console_and_desktop idle_battery_reading).1
      (by norm_num [get_battery_percentage, idle_battery_reading, battery_is_low])).1,
   ((threshold_crossings_reach_console_and_desktop idle_battery_reading).1
      (by norm_num [get_battery_percentage, idle_battery_reading, battery_is_low])).2,
   ((threshold_crossings_reach_console_and_desktop idle_battery_reading).2
      (by norm_num [get_battery_percentage, idle_battery_reading, battery_shutdown])).1,
   ((threshold_crossings_reach_console_and_desktop idle_battery_reading).2
      (by norm_num [get_battery_percentage, idle_battery_reading, battery_shutdown])).2⟩

-- Helper: at the full reference voltage no branch fires and the loop continues.
theorem nominal_reading_continues : (monitor_cycle nominal_reading).2 = true := by
  cases hb : (monitor_cycle nominal_reading).2
  · obtain ⟨hpct, -⟩ := (monitor_cycle_snd_false_iff _).mp hb
    norm_num [get_battery_percentage, nominal_reading, battery_shutdown] at hpct
  · rfl

/-- **C9.** A sensor read failure is caught nowhere: after any number of
successfully completed (and continuing) cycles, a `SensorFault` raised by
the register reads at the top of a cycle ends the whole run — the failed
cycle emits no events (no fabricated reading), the readings after the
fault are never consumed (no retry, no skipped cycle), and the fault
escapes to the process boundary. -/
theorem sensor_fault_escapes_loop (f : SensorFault) (good : List Reading)
    (rest : List (Except SensorFault Reading))
    (h : ∀ r ∈ good, (monitor_cycle r).2 = true) :
    monitor_loop_from (good.map Except.ok ++ Except.error f :: rest) =
      (monitor_loop good, some f) := by
  induction good with
  | nil => simp [monitor_loop, monitor_loop_from]
  | cons r rs ih =>
    have hr : (monitor_cycle r).2 = true := h r (List.mem_cons_self r rs)
    have hrs : ∀ x ∈ rs, (monitor_cycle x).2 = true :=
      fun x hx => h x (List.mem_cons_of_mem r hx)
    rcases hmc : monitor_cycle r with ⟨evs, b⟩
    rw [hmc] at hr
    simp only at hr
    subst hr
    simp [monitor_loop_from, monitor_loop, hmc, ih hrs]

/-- Witness for **C9**: one nominal continuing cycle, then a bus timeout. -/
theorem sensor_fault_escapes_loop_witness :
    monitor_loop_from [Except.ok nominal_reading, Except.error ⟨"i2c bus timeout"⟩] =
      (monitor_loop [nominal_reading], some ⟨"i2c bus timeout"⟩) :=
  sensor_fault_escapes_loop ⟨"i2c bus timeout"⟩ [nominal_reading] [] (by
    intro r hr
    rw [List.mem_singleton] at hr
    subst hr
    exact nominal_reading_continues)

/-- Witness for the amended **C2** at v = 4.2 (raw interpolation above 98). -/
theorem percent_display_clamped_in_range_witness :
    percent_display 4.2 =
      (if get_battery_percentage 4.2 > 98 then (100 : ℚ)
       else if get_battery_percentage 4.2 < 0 then 0 else get_battery_percentage 4.2) ∧
    0 ≤ percent_display 4.2 ∧ percent_display 4.2 ≤ 100 :=
  percent_display_clamped_in_range 4.2
